import Mathlib

/-!
Verification of the titanpl hot-reload supervisor.

This file gives a shallow embedding of the dev-loop supervisor found in
`templates/titan/dev.js` and in the alternate dev-loop source (the unnamed
dev script, referred to below as "part_002"), and proves properties of the
embedded definitions.

The embedding covers:
* the configuration constants of both files (`devCfg`, `part002Cfg`);
* the close-event handler's retry decision (`shouldRetry`,
  `handleServerClose`), identical in shape in both files;
* the crash-retry loop obtained by chaining close handlers
  (`crashLoopAttempts`);
* an event-trace model of `killServer` / `startRustServer` /
  `handleFileChange` / the part_002 watcher tick (`killServerTrace`,
  `startRustServerTrace`, ...), used for ordering properties;
* the debounce logic of the file watcher (`debounceFires`);
* the state-level model of `killServer` (`killServerRun`);
* the stdout/stderr classification of the part_002 process launcher
  (`launchStep`, `launchRun`).
-/

namespace Titan

/-- Configuration constants of a dev-loop source file.  Field names follow
the constant names in the source (`RETRY_WAIT_TIME`, `STANDARD_WAIT_TIME`,
`KILL_TIMEOUT`, `CRASH_DETECTION_WINDOW`, `MAX_RETRY_ATTEMPTS`,
`DEBOUNCE_DELAY`); `retryStartWaitTime` is the pre-spawn wait used when
`retryCount > 0` (in `dev.js` this is `RETRY_WAIT_TIME` itself, in part_002
it is the separate `RETRY_STANDARD_WAIT_TIME`). -/
structure DevConfig where
  retryWaitTime : Nat
  standardWaitTime : Nat
  retryStartWaitTime : Nat
  killTimeout : Nat
  crashDetectionWindow : Nat
  maxRetryAttempts : Nat
  debounceDelay : Nat
deriving DecidableEq, Repr

/-- Constants of `templates/titan/dev.js`: RETRY_WAIT_TIME = 2000,
STANDARD_WAIT_TIME = 1000, KILL_TIMEOUT = 3000,
CRASH_DETECTION_WINDOW = 10000, MAX_RETRY_ATTEMPTS = 3,
DEBOUNCE_DELAY = 500.  In `dev.js` the pre-spawn wait on a retry is
`RETRY_WAIT_TIME` = 2000. -/
def devCfg : DevConfig :=
  { retryWaitTime := 2000
    standardWaitTime := 1000
    retryStartWaitTime := 2000
    killTimeout := 3000
    crashDetectionWindow := 10000
    maxRetryAttempts := 3
    debounceDelay := 500 }

/-- Constants of the part_002 dev script: RETRY_WAIT_TIME = 2000,
STANDARD_WAIT_TIME = 200, RETRY_STANDARD_WAIT_TIME = 500,
KILL_TIMEOUT = 3000, CRASH_DETECTION_WINDOW = 15000,
MAX_RETRY_ATTEMPTS = 5, DEBOUNCE_DELAY = 300. -/
def part002Cfg : DevConfig :=
  { retryWaitTime := 2000
    standardWaitTime := 200
    retryStartWaitTime := 500
    killTimeout := 3000
    crashDetectionWindow := 15000
    maxRetryAttempts := 5
    debounceDelay := 300 }

/-- Exit code of the child process: `none` models JavaScript `null`
(signal-based termination), `some c` an integer exit code. -/
abbrev ExitCode := Option Int

/-- Action taken by the close handler: schedule a restart with the given
`retryCount` argument, or do nothing. -/
inductive CloseAction where
  | noRestart
  | restart (retryCount : Nat)
deriving DecidableEq, Repr

/-- The retry condition of the close handler.  `dev.js`:
`code !== 0 && code !== null && runTime < CRASH_DETECTION_WINDOW &&
retryCount < MAX_RETRY_ATTEMPTS`.  part_002 tests the same four conjuncts
(`code !== 0 && code !== null` guarding the failure branch and
`runTime < CRASH_DETECTION_WINDOW && retryCount < MAX_RETRY_ATTEMPTS`
guarding the retry inside it). -/
def shouldRetry (cfg : DevConfig) (code : ExitCode) (runTime retryCount : Nat) : Bool :=
  code != some 0 && code != none &&
    decide (runTime < cfg.crashDetectionWindow) &&
    decide (retryCount < cfg.maxRetryAttempts)

/-- `handleServerClose` of `dev.js` (the part_002 close handler makes the
same retry decision): return early while `isKilling`, otherwise restart
with `retryCount + 1` exactly when `shouldRetry` holds. -/
def handleServerClose (cfg : DevConfig) (isKilling : Bool) (code : ExitCode)
    (runTime retryCount : Nat) : CloseAction :=
  if isKilling then .noRestart
  else if shouldRetry cfg code runTime retryCount then .restart (retryCount + 1)
  else .noRestart

theorem handleServerClose_restart_inv {cfg : DevConfig} {code : ExitCode}
    {rt rc rc' : Nat}
    (h : handleServerClose cfg false code rt rc = .restart rc') :
    rc < cfg.maxRetryAttempts ∧ rc' = rc + 1 := by
  unfold handleServerClose at h
  simp only [Bool.false_eq_true, if_false] at h
  by_cases hs : shouldRetry cfg code rt rc = true
  · refine ⟨?_, ?_⟩
    · unfold shouldRetry at hs
      simp only [Bool.and_eq_true, decide_eq_true_eq] at hs
      exact hs.2
    · rw [if_pos hs] at h
      exact ((CloseAction.restart.injEq _ _).mp h).symm
  · rw [if_neg hs] at h
    exact absurd h (by simp)

/-- The chain of `startRustServer` attempts produced when every attempt's
process closes with exit code `code` after `ct attempt` milliseconds:
attempt `r` runs its close handler, which either schedules attempt `r + 1`
or stops.  Returns the list of `retryCount` arguments of all attempts. -/
def crashLoopAttempts (cfg : DevConfig) (ct : Nat → Nat) (code : ExitCode)
    (r : Nat) : List Nat :=
  match h : handleServerClose cfg false code (ct r) r with
  | .restart r' =>
      have : cfg.maxRetryAttempts - r' < cfg.maxRetryAttempts - r := by
        obtain ⟨hlt, hr⟩ := handleServerClose_restart_inv h
        omega
      r :: crashLoopAttempts cfg ct code r'
  | .noRestart => [r]
termination_by cfg.maxRetryAttempts - r

theorem crashLoopAttempts_eq_range' (cfg : DevConfig) (ct : Nat → Nat)
    (code : ExitCode) (hc0 : code ≠ some 0) (hcn : code ≠ none)
    (hct : ∀ n, ct n < cfg.crashDetectionWindow) :
    ∀ d r, cfg.maxRetryAttempts - r = d → r ≤ cfg.maxRetryAttempts →
      crashLoopAttempts cfg ct code r =
        List.range' r (cfg.maxRetryAttempts + 1 - r) := by
  intro d
  induction d with
  | zero =>
    intro r hd hle
    have hr : r = cfg.maxRetryAttempts := by omega
    rw [crashLoopAttempts.eq_def]
    split
    · next r' h => exact absurd (handleServerClose_restart_inv h).1 (by omega)
    · next h =>
      have : cfg.maxRetryAttempts + 1 - r = 1 := by omega
      rw [this]
      simp
  | succ d ih =>
    intro r hd hle
    have hrlt : r < cfg.maxRetryAttempts := by omega
    have hs : shouldRetry cfg code (ct r) r = true := by
      unfold shouldRetry
      simp only [Bool.and_eq_true, bne_iff_ne, ne_eq, decide_eq_true_eq]
      exact ⟨⟨⟨hc0, hcn⟩, hct r⟩, hrlt⟩
    rw [crashLoopAttempts.eq_def]
    split
    · next r' h =>
      obtain ⟨-, h2⟩ := handleServerClose_restart_inv h
      subst h2
      show r :: crashLoopAttempts cfg ct code (r + 1) =
        List.range' r (cfg.maxRetryAttempts + 1 - r)
      rw [ih (r + 1) (by omega) (by omega)]
      have hn : cfg.maxRetryAttempts + 1 - r =
          (cfg.maxRetryAttempts + 1 - (r + 1)) + 1 := by omega
      rw [hn, List.range'_succ]
    · next h =>
      unfold handleServerClose at h
      simp [hs] at h

/-- Claim C4: if the server exits with code 1 within the crash-detection
window on every start attempt, the controller performs exactly
`MAX_RETRY_ATTEMPTS` automatic retries — `startRustServer` is invoked with
`retryCount` 0 (the trigger) and then 1 through `MAX_RETRY_ATTEMPTS` (the
retries) — and then stops retrying. -/
theorem claim_C4_retry_budget (cfg : DevConfig) (ct : Nat → Nat)
    (hct : ∀ n, ct n < cfg.crashDetectionWindow) :
    crashLoopAttempts cfg ct (some 1) 0 = List.range (cfg.maxRetryAttempts + 1) ∧
    (crashLoopAttempts cfg ct (some 1) 0).filter (fun r => decide (0 < r)) =
      List.range' 1 cfg.maxRetryAttempts ∧
    ((crashLoopAttempts cfg ct (some 1) 0).filter (fun r => decide (0 < r))).length =
      cfg.maxRetryAttempts := by
  have h0 : crashLoopAttempts cfg ct (some 1) 0 =
      List.range' 0 (cfg.maxRetryAttempts + 1) := by
    have h := crashLoopAttempts_eq_range' cfg ct (some 1) (by decide) (by decide)
      hct cfg.maxRetryAttempts 0 (by omega) (Nat.zero_le _)
    simpa using h
  have hfil : (List.range' 1 cfg.maxRetryAttempts).filter (fun r => decide (0 < r)) =
      List.range' 1 cfg.maxRetryAttempts := by
    apply List.filter_eq_self.mpr
    intro a ha
    have hm := List.mem_range'_1.mp ha
    simp only [decide_eq_true_eq]
    omega
  have hfilter : (crashLoopAttempts cfg ct (some 1) 0).filter
      (fun r => decide (0 < r)) = List.range' 1 cfg.maxRetryAttempts := by
    rw [h0, List.range'_succ, List.filter_cons]
    simp only [Nat.lt_irrefl, decide_False, Bool.false_eq_true, if_false]
    exact hfil
  refine ⟨?_, hfilter, ?_⟩
  · rw [h0, List.range_eq_range']
  · rw [hfilter, List.length_range']

/-- Witness for C4 at the `dev.js` configuration (MAX_RETRY_ATTEMPTS = 3)
with every attempt crashing after 100 ms. -/
theorem claim_C4_retry_budget_witness :
    crashLoopAttempts devCfg (fun _ => 100) (some 1) 0 = List.range 4 ∧
    (crashLoopAttempts devCfg (fun _ => 100) (some 1) 0).filter
      (fun r => decide (0 < r)) = List.range' 1 3 ∧
    ((crashLoopAttempts devCfg (fun _ => 100) (some 1) 0).filter
      (fun r => decide (0 < r))).length = 3 :=
  claim_C4_retry_budget devCfg (fun _ => 100) (fun n => by show 100 < 10000; decide)

/-- Claim C2 is false on the code: an exit with code 0 while `isKilling`
is false does NOT schedule an automatic restart, whereas an exit with
code 1 under identical circumstances (run time 100 ms, retryCount 0)
does.  This holds for both the `dev.js` and the part_002 constants. -/
theorem claim_C2_counterexample :
    handleServerClose devCfg false (some 0) 100 0 = CloseAction.noRestart ∧
    handleServerClose devCfg false (some 1) 100 0 = CloseAction.restart 1 ∧
    handleServerClose part002Cfg false (some 0) 100 0 = CloseAction.noRestart ∧
    handleServerClose part002Cfg false (some 1) 100 0 = CloseAction.restart 1 := by
  refine ⟨by decide, by decide, by decide, by decide⟩

/-- Claim C2 amended: a clean exit (code 0) never schedules an automatic
restart, regardless of `isKilling`, run time or retry count; only
non-zero, non-null exit codes are eligible for restart. -/
theorem claim_C2_amended (cfg : DevConfig) (k : Bool) (rt rc : Nat) :
    handleServerClose cfg k (some 0) rt rc = CloseAction.noRestart := by
  unfold handleServerClose shouldRetry
  cases k <;> simp

/-- Claim C10: a close event with a null exit code (signal-based
termination) while `isKilling` is false never schedules a retry, and any
scheduled retry implies the exit code was a non-zero integer, the run
time was inside the crash-detection window, the retry count was below the
budget, and the new retry count is the old one plus one. -/
theorem claim_C10_null_exit_no_retry (cfg : DevConfig) (rt rc : Nat) :
    handleServerClose cfg false none rt rc = CloseAction.noRestart ∧
    (∀ code : ExitCode, ∀ n : Nat,
      handleServerClose cfg false code rt rc = CloseAction.restart n →
        code ≠ none ∧ code ≠ some 0 ∧ rt < cfg.crashDetectionWindow ∧
        rc < cfg.maxRetryAttempts ∧ n = rc + 1) := by
  constructor
  · unfold handleServerClose shouldRetry
    simp
  · intro code n h
    unfold handleServerClose at h
    simp only [Bool.false_eq_true, if_false] at h
    by_cases hs : shouldRetry cfg code rt rc = true
    · rw [if_pos hs] at h
      unfold shouldRetry at hs
      simp only [Bool.and_eq_true, bne_iff_ne, ne_eq, decide_eq_true_eq] at hs
      have hn : n = rc + 1 := ((CloseAction.restart.injEq _ _).mp h).symm
      exact ⟨hs.1.1.2, hs.1.1.1, hs.1.2, hs.2, hn⟩
    · rw [if_neg hs] at h
      exact absurd h (by simp)

/-- Witness for C10 at the `dev.js` configuration: a null exit after
50 ms is not retried, and the concrete retry at code 1 satisfies the
characterization. -/
theorem claim_C10_null_exit_no_retry_witness :
    handleServerClose devCfg false none 50 0 = CloseAction.noRestart ∧
    ((some 1 : ExitCode) ≠ none ∧ (some 1 : ExitCode) ≠ some 0 ∧
      50 < devCfg.crashDetectionWindow ∧ 0 < devCfg.maxRetryAttempts ∧
      1 = 0 + 1) :=
  ⟨(claim_C10_null_exit_no_retry devCfg 50 0).1,
   (claim_C10_null_exit_no_retry devCfg 50 0).2 (some 1) 1 (by decide)⟩

/-- A child-process handle as seen by `killServer`: its pid, its
`exitCode` field (`none` while the process is still alive, mirroring the
JavaScript `exitCode === null` check), and whether, once signalled, it
emits its close event within `KILL_TIMEOUT` (the environment-determined
outcome of the `Promise.race` in `killServer`). -/
structure Handle where
  pid : Nat
  exitCode : ExitCode
  closesWithinTimeout : Bool
deriving DecidableEq, Repr

/-- Observable events of one dev-loop step, in program order. -/
inductive Ev where
  | killSignal
  | closeObserved
  | killTimeout
  | buildOk
  | buildFail
  | waited (ms : Nat)
  | spawned (retryCount : Nat)
deriving DecidableEq, Repr

/-- Event trace of `killServer` (same structure in `dev.js` and
part_002): early return when `serverProcess` is null; otherwise issue the
platform kill, then race the close event against `KILL_TIMEOUT`.  If the
`exitCode` was already set the pre-resolved promise wins the race at once
(no new event); otherwise either the close event is observed or the
timeout elapses. -/
def killServerTrace : Option Handle → List Ev
  | none => []
  | some p =>
      Ev.killSignal ::
        (if p.exitCode.isSome then []
         else if p.closesWithinTimeout then [Ev.closeObserved]
         else [Ev.killTimeout])

/-- Event trace of `startRustServer retryCount`: `await killServer()`,
then the pre-spawn wait (`RETRY_WAIT_TIME` in `dev.js`, respectively
`RETRY_STANDARD_WAIT_TIME` in part_002, when `retryCount > 0`, else
`STANDARD_WAIT_TIME`), then the spawn. -/
def startRustServerTrace (cfg : DevConfig) (r : Nat) (s : Option Handle) : List Ev :=
  killServerTrace s ++
    [Ev.waited (if 0 < r then cfg.retryStartWaitTime else cfg.standardWaitTime),
     Ev.spawned r]

/-- Event trace of `handleFileChange` in `dev.js`: `rebuild` runs first;
on success `startRustServer(0)` follows (which kills the previous process
internally); on failure the error is caught and nothing else happens. -/
def handleFileChangeTrace (cfg : DevConfig) (s : Option Handle) (buildOk : Bool) :
    List Ev :=
  if buildOk then Ev.buildOk :: startRustServerTrace cfg 0 s
  else [Ev.buildFail]

/-- Event trace of `performInitialBuild` in `dev.js`: `rebuild` then
`startRustServer(0, root)` inside a try/catch; a build failure skips the
start. -/
def performInitialBuildTrace (cfg : DevConfig) (buildOk : Bool) : List Ev :=
  if buildOk then Ev.buildOk :: startRustServerTrace cfg 0 none
  else [Ev.buildFail]

/-- Event trace of one debounced watcher tick in part_002:
`await killServer()`, then `rebuild()` — which catches its own build
error internally and returns normally either way — then
`await startRustServer()`.  After the explicit kill the global
`serverProcess` is null, so the kill inside `startRustServer` is a no-op. -/
def watcherTickTrace (cfg : DevConfig) (s : Option Handle) (buildOk : Bool) :
    List Ev :=
  killServerTrace s ++ (if buildOk then [Ev.buildOk] else [Ev.buildFail]) ++
    startRustServerTrace cfg 0 none

/-- Event trace of the initial `rebuild(); startRustServer()` sequence in
part_002's `startDev`: `rebuild` swallows a build failure, so
`startRustServer` runs regardless of the build outcome. -/
def part002InitialTrace (cfg : DevConfig) (buildOk : Bool) : List Ev :=
  (if buildOk then [Ev.buildOk] else [Ev.buildFail]) ++
    startRustServerTrace cfg 0 none

/-- Scanning left to right, a termination observation (`closeObserved` or
`killTimeout`) occurs strictly before the first `spawned` event. -/
def termBeforeSpawn : List Ev → Bool
  | [] => true
  | Ev.spawned _ :: _ => false
  | Ev.closeObserved :: _ => true
  | Ev.killTimeout :: _ => true
  | _ :: rest => termBeforeSpawn rest

/-- Scanning left to right, a `killSignal` occurs strictly before the
first build event (`buildOk` or `buildFail`). -/
def killBeforeBuild : List Ev → Bool
  | [] => true
  | Ev.buildOk :: _ => false
  | Ev.buildFail :: _ => false
  | Ev.killSignal :: _ => true
  | _ :: rest => killBeforeBuild rest

/-- Scanning left to right, a `killSignal` occurs strictly before the
first `spawned` event. -/
def killBeforeSpawn : List Ev → Bool
  | [] => true
  | Ev.spawned _ :: _ => false
  | Ev.killSignal :: _ => true
  | _ :: rest => killBeforeSpawn rest

/-- The `retryCount` arguments of all `spawned` events of a trace. -/
def spawnCounts (l : List Ev) : List Nat :=
  l.filterMap fun e =>
    match e with
    | Ev.spawned r => some r
    | _ => none

/-- Whether the trace spawns a server process at all. -/
def hasSpawn (l : List Ev) : Bool :=
  l.any fun e =>
    match e with
    | Ev.spawned _ => true
    | _ => false

/-- Claim C1: for every invocation of `startRustServer` (any retry count)
whose previous global `serverProcess` is a live handle (`exitCode` still
null), the trace observes the previous process's close event or the
elapse of the kill timeout strictly before the new spawn. -/
theorem claim_C1_prev_terminated_before_spawn (cfg : DevConfig) (r : Nat)
    (p : Handle) (h : p.exitCode = none) :
    termBeforeSpawn (startRustServerTrace cfg r (some p)) = true := by
  cases hb : p.closesWithinTimeout <;>
    simp [startRustServerTrace, killServerTrace, h, hb, termBeforeSpawn]

/-- Witness for C1: a live previous handle (pid 41) that closes within
the timeout, at the `dev.js` configuration. -/
theorem claim_C1_prev_terminated_before_spawn_witness :
    termBeforeSpawn (startRustServerTrace devCfg 0 (some ⟨41, none, true⟩)) = true :=
  claim_C1_prev_terminated_before_spawn devCfg 0 ⟨41, none, true⟩ rfl

/-- Claim C3 is false on the code: in `dev.js`'s `handleFileChange`, the
build runs before the previous server is killed (the kill happens only
inside `startRustServer`, after `rebuild` succeeded).  Concretely, with a
live previous server (pid 7, alive, closing within the timeout) and a
successful build, no kill precedes the first build event. -/
theorem claim_C3_counterexample :
    killBeforeBuild (handleFileChangeTrace devCfg (some ⟨7, none, true⟩) true)
      = false := by decide

/-- Claim C3 amended: in part_002's watcher tick the kill of the previous
process does precede the build, and in `dev.js`'s `handleFileChange` the
kill — though it follows the build — still precedes the new spawn. -/
theorem claim_C3_amended (cfg : DevConfig) (p : Handle) (b : Bool) :
    killBeforeBuild (watcherTickTrace cfg (some p) b) = true ∧
    killBeforeSpawn (handleFileChangeTrace cfg (some p) true) = true := by
  constructor
  · simp [watcherTickTrace, killServerTrace, killBeforeBuild]
  · simp [handleFileChangeTrace, startRustServerTrace, killServerTrace,
      killBeforeSpawn]

/-- Claim C7 is false on the code: in part_002, `rebuild` catches its own
error and returns normally, so both the initial `startDev` sequence and
every watcher tick spawn the server process even when the builder always
fails. -/
theorem claim_C7_counterexample :
    hasSpawn (part002InitialTrace part002Cfg false) = true ∧
    hasSpawn (watcherTickTrace part002Cfg none false) = true := by decide

/-- Claim C7 amended: in `dev.js`, a build failure on a file-change
trigger (and on the initial build) is caught and reported, no server
process is spawned and no kill or retry occurs — the trace is exactly the
failed build event; in part_002 the build failure is likewise not
retried, but the server process is nevertheless started. -/
theorem claim_C7_amended (cfg : DevConfig) (s : Option Handle) :
    handleFileChangeTrace cfg s false = [Ev.buildFail] ∧
    performInitialBuildTrace cfg false = [Ev.buildFail] ∧
    spawnCounts (handleFileChangeTrace cfg s false) = [] ∧
    spawnCounts (watcherTickTrace cfg s false) = [0] := by
  refine ⟨rfl, rfl, rfl, ?_⟩
  cases s with
  | none =>
      simp [watcherTickTrace, killServerTrace, startRustServerTrace, spawnCounts]
  | some p =>
      cases hp : p.exitCode.isSome <;> cases hb : p.closesWithinTimeout <;>
        simp [watcherTickTrace, killServerTrace, startRustServerTrace,
          spawnCounts, hp, hb]

/-- Claim C5: a crash after the crash-detection window never schedules an
automatic retry, whatever the retry count reached earlier; the next
file-change trigger invokes `startRustServer` with retry count 0; and the
crash loop started from retry count 0 counts 0, 1, …, MAX_RETRY_ATTEMPTS
afresh, independent of any earlier count. -/
theorem claim_C5_retry_counter_resets (cfg : DevConfig) (code : ExitCode)
    (rt r : Nat) (hrt : cfg.crashDetectionWindow ≤ rt)
    (ct : Nat → Nat) (hct : ∀ n, ct n < cfg.crashDetectionWindow)
    (s : Option Handle) :
    handleServerClose cfg false code rt r = CloseAction.noRestart ∧
    spawnCounts (handleFileChangeTrace cfg s true) = [0] ∧
    crashLoopAttempts cfg ct (some 1) 0 = List.range (cfg.maxRetryAttempts + 1) := by
  refine ⟨?_, ?_, (claim_C4_retry_budget cfg ct hct).1⟩
  · unfold handleServerClose shouldRetry
    have : ¬ rt < cfg.crashDetectionWindow := by omega
    simp [this]
  · cases s with
    | none =>
        simp [handleFileChangeTrace, startRustServerTrace, killServerTrace,
          spawnCounts]
    | some p =>
        cases hp : p.exitCode.isSome <;> cases hb : p.closesWithinTimeout <;>
          simp [handleFileChangeTrace, startRustServerTrace, killServerTrace,
            spawnCounts, hp, hb]

/-- Witness for C5 at the `dev.js` configuration: a crash at run time
20000 ms (past the 10000 ms window) with exit code 1 at retry count 2 is
not retried, and the next trigger's crash loop counts 0,1,2,3. -/
theorem claim_C5_retry_counter_resets_witness :
    handleServerClose devCfg false (some 1) 20000 2 = CloseAction.noRestart ∧
    spawnCounts (handleFileChangeTrace devCfg none true) = [0] ∧
    crashLoopAttempts devCfg (fun _ => 100) (some 1) 0 = List.range 4 :=
  claim_C5_retry_counter_resets devCfg (some 1) 20000 2 (by decide)
    (fun _ => 100) (fun n => by show 100 < 10000; decide) none

/-- A watcher event as seen by the debouncing handler: the time at which
it arrives and the changed file path passed to the callback. -/
structure WEvent where
  time : Nat
  file : String
deriving DecidableEq, Repr

/-- Firings of the debounced handler in `createFileWatcher` /
part_002's `watcher.on` callback: each event clears any pending timer and
arms a new one for `DEBOUNCE_DELAY` ms capturing the event's file.  The
timer armed at event `e` fires at `e.time + d` unless a further event
arrives strictly before that instant and clears it.  Returns the list of
`(fire time, file)` pairs. -/
def debounceFires (d : Nat) : List WEvent → List (Nat × String)
  | [] => []
  | [e] => [(e.time + d, e.file)]
  | e :: e' :: rest =>
      if e'.time < e.time + d then debounceFires d (e' :: rest)
      else (e.time + d, e.file) :: debounceFires d (e' :: rest)

/-- Claim C6: for every sequence of N ≥ 1 watcher events in which each
consecutive pair is separated by less than the debounce delay, the
debounced handler fires exactly once, one debounce delay after the last
event, with the last event's file (last-write-wins coalescing). -/
theorem claim_C6_debounce_coalesces (d : Nat) (pre : List WEvent) (e : WEvent)
    (hgap : (pre ++ [e]).Chain' (fun a b => b.time < a.time + d)) :
    debounceFires d (pre ++ [e]) = [(e.time + d, e.file)] := by
  induction pre with
  | nil => simp [debounceFires]
  | cons a rest ih =>
    cases rest with
    | nil =>
        have h := (List.chain'_cons.mp hgap).1
        show debounceFires d (a :: [e]) = [(e.time + d, e.file)]
        simp only [debounceFires]
        rw [if_pos h]
    | cons b rest' =>
        have h1 := (List.chain'_cons.mp hgap).1
        have h2 := (List.chain'_cons.mp hgap).2
        show debounceFires d (a :: b :: (rest' ++ [e])) = [(e.time + d, e.file)]
        have hstep : debounceFires d (a :: b :: (rest' ++ [e])) =
            debounceFires d (b :: (rest' ++ [e])) := by
          simp only [debounceFires]
          rw [if_pos h1]
        rw [hstep]
        exact ih h2

/-- Witness for C6: the spec's scenario — three events 50 ms apart with a
500 ms delay fire exactly once, 500 ms after the last event, with the
last event's path. -/
theorem claim_C6_debounce_coalesces_witness :
    debounceFires 500 ([⟨0, "a"⟩, ⟨50, "b"⟩] ++ [⟨100, "c"⟩]) = [(600, "c")] :=
  claim_C6_debounce_coalesces 500 [⟨0, "a"⟩, ⟨50, "b"⟩] ⟨100, "c"⟩ (by
    refine List.chain'_cons.mpr ⟨by decide, List.chain'_cons.mpr ⟨by decide, ?_⟩⟩
    exact List.chain'_singleton _)

/-- Outcome of one `killServer` call: the final global `serverProcess`
and `isKilling` values, whether the bounded wait ran the full
`KILL_TIMEOUT` (the close event lost the race), and whether the call
rejected with an error (every failure path in the source is wrapped in a
try/catch, so this is always false). -/
structure KillOutcome where
  finalServer : Option Handle
  finalIsKilling : Bool
  waitedFullTimeout : Bool
  threwError : Bool
deriving DecidableEq, Repr

/-- State-level model of `killServer`: early return leaving everything
untouched when `serverProcess` is null; otherwise set `isKilling`, issue
the platform kill, race the close event (pre-resolved when `exitCode` is
already set) against `KILL_TIMEOUT`, then null the handle and clear
`isKilling`. -/
def killServerRun (s : Option Handle) (isKilling : Bool) : KillOutcome :=
  match s with
  | none => ⟨none, isKilling, false, false⟩
  | some p => ⟨none, false, p.exitCode.isNone && ! p.closesWithinTimeout, false⟩

/-- Claim C8: `killServer` with no server process running returns at once
leaving the state untouched; with a process whose exit code is already
set it resolves without error and without waiting out the kill timeout;
and it is idempotent — a second call after any first call is the
immediate no-op. -/
theorem claim_C8_killServer_idempotent (p : Handle) (c : Int)
    (s : Option Handle) (k : Bool) :
    killServerRun none k = ⟨none, k, false, false⟩ ∧
    killServerRun (some { p with exitCode := some c }) k = ⟨none, false, false, false⟩ ∧
    killServerRun (killServerRun s k).finalServer (killServerRun s k).finalIsKilling =
      ⟨none, (killServerRun s k).finalIsKilling, false, false⟩ := by
  refine ⟨rfl, by simp [killServerRun], ?_⟩
  cases s <;> simp [killServerRun]

/-- Events emitted by the spawned server process in part_002's
`startRustServer`: stdout data, stderr data, and the close event. -/
inductive PEv where
  | stdoutData (s : String)
  | stderrData (s : String)
  | closeEv (code : ExitCode)
deriving DecidableEq, Repr

/-- Whether an event is the close event. -/
def PEv.isClose : PEv → Bool
  | .closeEv _ => true
  | _ => false

/-- The stderr payload of an event, when it has one. -/
def PEv.stderrChunk : PEv → Option String
  | .stderrData s => some s
  | _ => none

/-- Launcher-visible state of part_002's `startRustServer` handlers:
the `isReady` flag, the accumulated `stdoutBuffer`, the buffered
pre-ready stderr (`buildLogs`), the stderr chunks passed through live
after readiness, and the build logs dumped by the close handler (if
any). -/
structure LaunchSt where
  isReady : Bool
  stdoutBuffer : String
  buildLogs : String
  liveStderr : List String
  dumpedLogs : Option String
deriving DecidableEq, Repr

/-- Initial launcher state: not ready, empty buffers, nothing dumped. -/
def initLaunch : LaunchSt :=
  { isReady := false
    stdoutBuffer := ""
    buildLogs := ""
    liveStderr := []
    dumpedLogs := none }

/-- Readiness-banner detection of part_002: the accumulated stdout buffer
contains the listening banner substring. -/
def bannerReady (buf : String) : Bool :=
  buf.containsSubstr ("Titan server running".toSubstring) ||
    buf.containsSubstr ("████████╗".toSubstring)

/-- One step of part_002's `startRustServer` event handlers.
`stderr.on`: pass through when ready, else append to `buildLogs`.
`stdout.on`: when not ready, extend the buffer and flip `isReady` on
banner detection (clearing the buffer).  `on close`: return early while
`isKilling`; on a non-zero, non-null code, dump the buffered logs when
the process never became ready. -/
def launchStep (isKilling : Bool) (st : LaunchSt) : PEv → LaunchSt
  | .stderrData s =>
      if st.isReady then { st with liveStderr := st.liveStderr ++ [s] }
      else { st with buildLogs := st.buildLogs ++ s }
  | .stdoutData s =>
      if st.isReady then st
      else
        let buf := st.stdoutBuffer ++ s
        if bannerReady buf then { st with isReady := true, stdoutBuffer := "" }
        else { st with stdoutBuffer := buf }
  | .closeEv code =>
      if isKilling then st
      else if code != some 0 && code != none then
        if ! st.isReady then { st with dumpedLogs := some st.buildLogs }
        else st
      else st

/-- Run the launcher handlers over a list of process events. -/
def launchRun (isKilling : Bool) (evs : List PEv) : LaunchSt :=
  evs.foldl (launchStep isKilling) initLaunch

/-- Concatenation of a list of string chunks. -/
def strConcat : List String → String
  | [] => ""
  | s :: rest => s ++ strConcat rest

theorem launchStep_ready_of_ready (k : Bool) (st : LaunchSt) (e : PEv)
    (h : st.isReady = true) : (launchStep k st e).isReady = true := by
  cases e with
  | stderrData s => simp [launchStep, h]
  | stdoutData s => simp [launchStep, h]
  | closeEv c =>
      simp only [launchStep]
      split
      · exact h
      · split
        · split
          · exact h
          · exact h
        · exact h

theorem launchRun_ready_mono (k : Bool) (evs : List PEv) :
    ∀ st : LaunchSt, st.isReady = true →
      (List.foldl (launchStep k) st evs).isReady = true := by
  induction evs with
  | nil => intro st h; exact h
  | cons e rest ih =>
      intro st h
      exact ih _ (launchStep_ready_of_ready k st e h)

theorem launchRun_not_ready_head (k : Bool) (e : PEv) (rest : List PEv)
    (st : LaunchSt)
    (h : (List.foldl (launchStep k) st (e :: rest)).isReady = false) :
    st.isReady = false := by
  cases hsr : st.isReady
  · rfl
  · rw [launchRun_ready_mono k (e :: rest) st hsr] at h
    exact absurd h (by simp)

theorem launchRun_buffers_stderr (k : Bool) (evs : List PEv) :
    ∀ st : LaunchSt, evs.all (fun e => ! e.isClose) = true →
      (List.foldl (launchStep k) st evs).isReady = false →
      (List.foldl (launchStep k) st evs).buildLogs =
        st.buildLogs ++ strConcat (evs.filterMap PEv.stderrChunk) ∧
      (List.foldl (launchStep k) st evs).liveStderr = st.liveStderr := by
  induction evs with
  | nil =>
      intro st _ _
      simp [strConcat, String.append_empty]
  | cons e rest ih =>
      intro st hall hnr
      have hstf : st.isReady = false := launchRun_not_ready_head k e rest st hnr
      rw [List.all_cons, Bool.and_eq_true] at hall
      have hall' : rest.all (fun e => ! e.isClose) = true := hall.2
      cases e with
      | closeEv c =>
          exact absurd hall.1 (by simp [PEv.isClose])
      | stderrData s =>
          have hstep : launchStep k st (.stderrData s) =
              { st with buildLogs := st.buildLogs ++ s } := by
            simp [launchStep, hstf]
          rw [List.foldl_cons, hstep] at hnr ⊢
          obtain ⟨h1, h2⟩ := ih _ hall' hnr
          refine ⟨?_, h2⟩
          rw [h1]
          simp only [List.filterMap_cons, PEv.stderrChunk, strConcat]
          rw [String.append_assoc]
      | stdoutData s =>
          rw [List.foldl_cons] at hnr ⊢
          have hb : bannerReady (st.stdoutBuffer ++ s) = false := by
            cases hbb : bannerReady (st.stdoutBuffer ++ s)
            · rfl
            · have hstep : (launchStep k st (.stdoutData s)).isReady = true := by
                simp [launchStep, hstf, hbb]
              exact absurd (launchRun_ready_mono k rest _ hstep) (by simp [hnr])
          have hstep : launchStep k st (.stdoutData s) =
              { st with stdoutBuffer := st.stdoutBuffer ++ s } := by
            simp [launchStep, hstf, hb]
          rw [hstep] at hnr ⊢
          obtain ⟨h1, h2⟩ := ih _ hall' hnr
          refine ⟨?_, h2⟩
          rw [h1]
          simp [List.filterMap_cons, PEv.stderrChunk]

theorem launchRun_dumped_of_no_close (k : Bool) (evs : List PEv) :
    ∀ st : LaunchSt, evs.all (fun e => ! e.isClose) = true →
      (List.foldl (launchStep k) st evs).dumpedLogs = st.dumpedLogs := by
  induction evs with
  | nil => intro st _; rfl
  | cons e rest ih =>
      intro st hall
      rw [List.all_cons, Bool.and_eq_true] at hall
      have hall' : rest.all (fun e => ! e.isClose) = true := hall.2
      rw [List.foldl_cons, ih _ hall']
      cases e with
      | closeEv c => exact absurd hall.1 (by simp [PEv.isClose])
      | stderrData s =>
          by_cases hr : st.isReady = true <;> simp [launchStep, hr]
      | stdoutData s =>
          by_cases hr : st.isReady = true
          · simp [launchStep, hr]
          · simp only [Bool.not_eq_true] at hr
            by_cases hb : bannerReady (st.stdoutBuffer ++ s) = true <;>
              simp [launchStep, hr, hb]

/-- Claim C9: with `isKilling` false and an event stream of stdout/stderr
data followed by the close event: while the process never became ready,
every stderr chunk is appended to the buffered `buildLogs` and none is
passed through live; the close handler dumps the buffered logs exactly
when the exit code is a non-zero integer and the process never became
ready, the dump being precisely the buffered stderr; and if the process
did become ready, the buffered pre-ready stderr is never dumped. -/
theorem claim_C9_stderr_buffering (body : List PEv) (code : ExitCode)
    (hnc : body.all (fun e => ! e.isClose) = true) :
    ((launchRun false body).isReady = false →
      (launchRun false body).buildLogs =
        strConcat (body.filterMap PEv.stderrChunk) ∧
      (launchRun false body).liveStderr = []) ∧
    (launchRun false (body ++ [PEv.closeEv code])).dumpedLogs =
      (if (code != some 0 && code != none) && ! (launchRun false body).isReady
        then some (launchRun false body).buildLogs else none) ∧
    ((launchRun false body).isReady = true →
      (launchRun false (body ++ [PEv.closeEv code])).dumpedLogs = none) := by
  have hbody := launchRun_buffers_stderr false body initLaunch hnc
  have hdump : launchRun false (body ++ [PEv.closeEv code]) =
      launchStep false (launchRun false body) (PEv.closeEv code) := by
    unfold launchRun
    rw [List.foldl_append]
    rfl
  have hnoneyet : (launchRun false body).dumpedLogs = none :=
    launchRun_dumped_of_no_close false body initLaunch hnc
  have hclose : ∀ hr : Bool, (launchRun false (body ++ [PEv.closeEv code])).dumpedLogs =
      (if (code != some 0 && code != none) && ! (launchRun false body).isReady
        then some (launchRun false body).buildLogs else none) := fun _ => by
    rw [hdump]
    simp only [launchStep]
    by_cases hc : (code != some 0 && code != none) = true
    · by_cases hr : (launchRun false body).isReady = true
      · simp [hc, hr, hnoneyet]
      · simp only [Bool.not_eq_true] at hr
        simp [hc, hr]
    · simp only [Bool.not_eq_true] at hc
      simp [hc, hnoneyet]
  refine ⟨?_, hclose true, ?_⟩
  · intro hr
    obtain ⟨h1, h2⟩ := hbody hr
    unfold launchRun
    rw [h1]
    exact ⟨String.empty_append _, h2⟩
  · intro hr
    rw [hclose true, hr]
    simp

/-- Sample pre-ready stderr chunk for the C9 witness. -/
def wErr1 : String := "warning: unused variable"

/-- Sample non-banner stdout chunk for the C9 witness. -/
def wOut1 : String := "Compiling titan-server v0.1.0"

/-- Second sample stderr chunk for the C9 witness. -/
def wErr2 : String := "error: build failed"

/-- Event stream body for the C9 witness: two stderr chunks around one
non-banner stdout chunk, never reaching readiness. -/
def wBody : List PEv := [PEv.stderrData wErr1, PEv.stdoutData wOut1, PEv.stderrData wErr2]

/-- Witness for C9 on a concrete stream closing with exit code 101. -/
theorem claim_C9_stderr_buffering_witness :
    ((launchRun false wBody).isReady = false →
      (launchRun false wBody).buildLogs =
        strConcat (wBody.filterMap PEv.stderrChunk) ∧
      (launchRun false wBody).liveStderr = []) ∧
    (launchRun false (wBody ++ [PEv.closeEv (some 101)])).dumpedLogs =
      (if ((some 101 : ExitCode) != some 0 && (some 101 : ExitCode) != none) &&
          ! (launchRun false wBody).isReady
        then some (launchRun false wBody).buildLogs else none) ∧
    ((launchRun false wBody).isReady = true →
      (launchRun false (wBody ++ [PEv.closeEv (some 101)])).dumpedLogs = none) :=
  claim_C9_stderr_buffering wBody (some 101) (by decide)

end Titan
